import Mathlib

/-!
A verification development for the school enrollment statistics program
(school_data.py).  The raw table is modelled as a list of rows; the pandas
and numpy operations used by the program are modelled as executable Lean
functions, and Python exceptions as an Except monad over an error type.
-/

/-- One row of the raw enrollment table.  A grade cell is None when the
CSV cell is blank (pandas NaN). -/
structure Row where
  schoolName : String
  schoolCode : Int
  schoolYear : Int
  grade10 : Option Int
  grade11 : Option Int
  grade12 : Option Int
  deriving DecidableEq, Repr

/-- The Python exceptions the program can raise in the modelled fragment. -/
inductive PyError where
  /-- TypeError raised by the int() cast when the filtered series does not
  hold exactly one element. -/
  | typeError
  /-- ValueError with the message about entering a valid school name or code. -/
  | unknownSchool
  /-- ValueError raised by a numpy reduction over a zero-size array. -/
  | emptyReduction
  deriving DecidableEq, Repr

/-- pandas Series.unique: distinct values in first-appearance order.
The seen accumulator holds the values already emitted. -/
def uniqueAux {α : Type} [DecidableEq α] (seen : List α) : List α → List α
  | [] => []
  | x :: xs => if x ∈ seen then uniqueAux seen xs else x :: uniqueAux (x :: seen) xs

/-- pandas Series.unique on a whole column. -/
def unique {α : Type} [DecidableEq α] (l : List α) : List α := uniqueAux [] l

/-- The distinct school names of the table, in first-appearance order. -/
def schoolsOf (df : List Row) : List String := unique (df.map Row.schoolName)

/-- The distinct school years of the table, in first-appearance order. -/
def yearsOf (df : List Row) : List Int := unique (df.map Row.schoolYear)

/-- The three grade columns, in the order the program enumerates them. -/
def gradeCols : List (Row → Option Int) := [Row.grade10, Row.grade11, Row.grade12]

/-- The rows matching a boolean mask on school name and school year. -/
def matchingRows (df : List Row) (school : String) (year : Int) : List Row :=
  df.filter fun r => r.schoolName == school && r.schoolYear == year

/-- int() applied to a pandas Series: succeeds exactly when the series holds
one element, and that element is not NaN. -/
def seriesToInt : List (Option Int) → Except PyError Int
  | [some v] => .ok v
  | _ => .error .typeError

/-- The value stored into one cube cell: the program filters the table on
school and year, projects one grade column, zeroes the cell when any value
of the selection is NaN, and otherwise casts the selection with int(). -/
def cellValue (df : List Row) (school : String) (year : Int)
    (col : Row → Option Int) : Except PyError Int :=
  if ((matchingRows df school year).map col).any Option.isNone then .ok 0
  else seriesToInt ((matchingRows df school year).map col)

/-- Effectful map over a list in the Except monad, stopping at the first
error, exactly as the nested Python loops stop at the first raised
exception. -/
def mapE {α β : Type} (f : α → Except PyError β) : List α → Except PyError (List β)
  | [] => .ok []
  | x :: xs =>
    match f x with
    | .error e => .error e
    | .ok y =>
      match mapE f xs with
      | .error e => .error e
      | .ok ys => .ok (y :: ys)

/-- The (years x grades) plane of the cube for one school. -/
def schoolSlice (df : List Row) (school : String) : Except PyError (List (List Int)) :=
  mapE (fun year => mapE (fun col => cellValue df school year col) gradeCols) (yearsOf df)

/-- create_enrollment_array: build the (schools x years x grades) cube. -/
def create_enrollment_array (df : List Row) : Except PyError (List (List (List Int))) :=
  mapE (schoolSlice df) (schoolsOf df)

/-- One step of building the school_codes dict: a Python dict assignment
keeps the position of an existing key and updates its value, and appends a
new key at the end. -/
def insertCode (m : List (String × Int)) (name : String) (code : Int) :
    List (String × Int) :=
  if name ∈ m.map Prod.fst then
    m.map (fun p => if p.1 == name then (p.1, code) else p)
  else m ++ [(name, code)]

/-- The school_codes dictionary: school name to school code, built from the
two columns of the whole table, in insertion order. -/
def school_codes (df : List Row) : List (String × Int) :=
  df.foldl (fun m r => insertCode m r.schoolName r.schoolCode) []

/-- A user-supplied identifier, pre-classified as the program does with
str.isdigit: a digit string is a code, anything else a name. -/
inductive Identifier where
  | byName (name : String)
  | byCode (code : Int)
  deriving DecidableEq, Repr

/-- The school name the identifier denotes: a name denotes itself, a code
denotes the first dict entry holding that code (None when there is none). -/
def resolveName (codes : List (String × Int)) : Identifier → Option String
  | .byName n => some n
  | .byCode c => (codes.find? fun p => p.2 == c).map Prod.fst

/-- list(dict.keys()).index(name), as an Option. -/
def indexOfName : List (String × Int) → String → Option Nat
  | [], _ => none
  | p :: ps, n =>
    if p.1 = n then some 0 else
      match indexOfName ps n with
      | none => none
      | some i => some (i + 1)

/-- get_school_index: resolve an identifier to a school position, raising
the unknown-school ValueError when the name is not a key of school_codes. -/
def get_school_index (codes : List (String × Int)) (ident : Identifier) :
    Except PyError Nat :=
  match resolveName codes ident with
  | none => .error .unknownSchool
  | some n =>
    match indexOfName codes n with
    | none => .error .unknownSchool
    | some i => .ok i

/-- Whether an identifier matches a dict entry (same name, or same code). -/
def matchesSchool : Identifier → String × Int → Bool
  | .byName n, p => p.1 == n
  | .byCode c, p => p.2 == c

/-- The median_over_500 entry: either the integer median, or the string
about no enrollments over 500. -/
inductive Median500 where
  | noneOver500
  | value (m : Int)
  deriving DecidableEq, Repr

/-- The dictionary returned by calculate_school_stats. -/
structure SchoolStatsRecord where
  school_name : String
  school_code : Int
  mean_grade_10 : Int
  mean_grade_11 : Int
  mean_grade_12 : Int
  highest_enrollment : Int
  lowest_enrollment : Int
  yearly_totals : List Int
  total_enrollment : Int
  mean_yearly_enrollment : Int
  enrollments_over_500 : List Int
  median_over_500 : Median500
  deriving DecidableEq, Repr

/-- The cells of a 2D slice in numpy row-major order. -/
def cells (slice : List (List Int)) : List Int :=
  slice.foldr (fun r acc => r ++ acc) []

/-- The cells of the whole 3D cube in numpy row-major order. -/
def cells3 (cube : List (List (List Int))) : List Int :=
  (cube.map cells).foldr (fun a b => a ++ b) []

/-- One grade column of a slice. -/
def column (slice : List (List Int)) (k : Nat) : List Int :=
  slice.map (fun r => r.getD k 0)

/-- np.floor(np.mean(l)) on an integer array: the floor of sum / length. -/
def flooredMean (l : List Int) : Int := Int.fdiv l.sum (l.length : Int)

/-- np.max on a nonempty integer array (the [] case is never reached by the
program: numpy raises on an empty reduction and the callers guard it). -/
def listMax : List Int → Int
  | [] => 0
  | x :: xs => xs.foldl max x

/-- np.min on a nonempty integer array. -/
def listMin : List Int → Int
  | [] => 0
  | x :: xs => xs.foldl min x

/-- Insert a value into a sorted list, keeping it sorted. -/
def insertSorted (x : Int) : List Int → List Int
  | [] => [x]
  | y :: ys => if x ≤ y then x :: y :: ys else y :: insertSorted x ys

/-- The sort performed inside np.median. -/
def sortInts (l : List Int) : List Int := l.foldr insertSorted []

/-- int(np.median(l)) on a nonempty integer array: sort; an odd length
takes the middle element, an even length averages the two middle elements
and int() truncates the average toward zero. -/
def npMedianInt (l : List Int) : Int :=
  if (sortInts l).length % 2 = 1 then (sortInts l).getD ((sortInts l).length / 2) 0
  else Int.tdiv
    ((sortInts l).getD ((sortInts l).length / 2 - 1) 0 +
      (sortInts l).getD ((sortInts l).length / 2) 0) 2

/-- list(dict.keys())[index], the school name at a position. -/
def schoolNameAt (df : List Row) (index : Nat) : String :=
  ((school_codes df).map Prod.fst).getD index ""

/-- dict[name], the code stored for a school name. -/
def schoolCodeOf (df : List Row) (name : String) : Int :=
  (((school_codes df).find? (fun p => p.1 == name)).map Prod.snd).getD 0

/-- The body of calculate_school_stats once the school position is known. -/
def calculate_core (df : List Row) (cube : List (List (List Int))) (index : Nat) :
    Except PyError SchoolStatsRecord :=
  if (cells (cube.getD index [])).isEmpty then .error .emptyReduction
  else
    .ok {
      school_name := schoolNameAt df index
      school_code := schoolCodeOf df (schoolNameAt df index)
      mean_grade_10 := flooredMean (column (cube.getD index []) 0)
      mean_grade_11 := flooredMean (column (cube.getD index []) 1)
      mean_grade_12 := flooredMean (column (cube.getD index []) 2)
      highest_enrollment := listMax (cells (cube.getD index []))
      lowest_enrollment := listMin (cells (cube.getD index []))
      yearly_totals := (cube.getD index []).map List.sum
      total_enrollment := (cells (cube.getD index [])).sum
      mean_yearly_enrollment := flooredMean ((cube.getD index []).map List.sum)
      enrollments_over_500 := (cells (cube.getD index [])).filter (fun v => decide (500 < v))
      median_over_500 :=
        if ((cells (cube.getD index [])).filter (fun v => decide (500 < v))).isEmpty
        then .noneOver500
        else .value (npMedianInt ((cells (cube.getD index [])).filter (fun v => decide (500 < v))))
    }

/-- calculate_school_stats: per-school statistics for an identifier. -/
def calculate_school_stats (df : List Row) (cube : List (List (List Int)))
    (ident : Identifier) : Except PyError SchoolStatsRecord :=
  match get_school_index (school_codes df) ident with
  | .error e => .error e
  | .ok index => calculate_core df cube index

/-- The dictionary returned by calculate_general_stats.  A mean field is
None when it is the numpy NaN produced by a mean over no values. -/
structure GeneralStatsRecord where
  mean_2013 : Option Int
  mean_2022 : Option Int
  total_graduating_2022 : Int
  highest_enrollment : Int
  lowest_enrollment : Int
  deriving DecidableEq, Repr

/-- The non-NaN grade values of all rows of one year, the data of the
np.mean in calculate_general_stats. -/
def gradeValuesForYear (df : List Row) (year : Int) : List Int :=
  (df.filter (fun r => r.schoolYear == year)).foldr
    (fun r acc => (List.filterMap (fun x => x) [r.grade10, r.grade11, r.grade12]) ++ acc) []

/-- np.floor(np.mean(l)) when the mean may be over no values (NaN). -/
def npMeanFloorOpt (l : List Int) : Option Int :=
  if l.isEmpty then none else some (flooredMean l)

/-- calculate_general_stats: the year bounds 2013 and 2022 appear literally
in the source. -/
def calculate_general_stats (df : List Row) (cube : List (List (List Int))) :
    Except PyError GeneralStatsRecord :=
  if (cells3 cube).isEmpty then .error .emptyReduction
  else .ok {
    mean_2013 := npMeanFloorOpt (gradeValuesForYear df 2013)
    mean_2022 := npMeanFloorOpt (gradeValuesForYear df 2022)
    total_graduating_2022 :=
      ((df.filter (fun r => r.schoolYear == 2022)).filterMap Row.grade12).sum
    highest_enrollment := listMax (cells3 cube)
    lowest_enrollment := listMin (cells3 cube)
  }

/-- The record of the spec's generalStats, with caller-chosen bounds. -/
structure GeneralSpecRecord where
  mean_start : Option Int
  mean_end : Option Int
  total_grad_end : Int
  highest_enrollment : Int
  lowest_enrollment : Int
  deriving DecidableEq, Repr

/-- Modelled from the spec: generalStats(table, cube, startYear, endYear)
where startYear and endYear are caller-supplied parameters (the spec
defaults them to the earliest and latest observed year); compare with
calculate_general_stats, whose bounds are the literals 2013 and 2022. -/
def calculate_general_stats_spec (df : List Row) (cube : List (List (List Int)))
    (startYear endYear : Int) : Except PyError GeneralSpecRecord :=
  if (cells3 cube).isEmpty then .error .emptyReduction
  else .ok {
    mean_start := npMeanFloorOpt (gradeValuesForYear df startYear)
    mean_end := npMeanFloorOpt (gradeValuesForYear df endYear)
    total_grad_end :=
      ((df.filter (fun r => r.schoolYear == endYear)).filterMap Row.grade12).sum
    highest_enrollment := listMax (cells3 cube)
    lowest_enrollment := listMin (cells3 cube)
  }

/-- The earliest year observed in the dataset (spec default of startYear). -/
def earliestYear (df : List Row) : Int := listMin (yearsOf df)

/-- The latest year observed in the dataset (spec default of endYear). -/
def latestYear (df : List Row) : Int := listMax (yearsOf df)

/-! Concrete tables used to exercise the model. -/

/-- One school over two years, the worked example of the documentation. -/
def dfLincoln : List Row := [
  ⟨"Lincoln", 100, 2013, some 400, some 420, some 600⟩,
  ⟨"Lincoln", 100, 2014, some 450, none, some 610⟩]

/-- The cube built from dfLincoln. -/
def cubeLincoln : List (List (List Int)) := [[[400, 420, 600], [450, 0, 610]]]

/-- The statistics record of the school of dfLincoln. -/
def lincolnRecord : SchoolStatsRecord :=
  ⟨"Lincoln", 100, 425, 210, 605, 610, 0, [1420, 1060], 2480, 1240, [600, 610], .value 605⟩

/-- Two schools that each appear in only one year, so the pair
(school A, year 2014) has no matching row. -/
def dfGap : List Row := [
  ⟨"A", 1, 2013, some 1, some 2, some 3⟩,
  ⟨"B", 2, 2014, some 4, some 5, some 6⟩]

/-- Two distinct schools sharing school code 7. -/
def dfDup : List Row := [
  ⟨"A", 7, 2013, some 1, some 1, some 1⟩,
  ⟨"B", 7, 2013, some 1, some 1, some 1⟩]

/-- A single school observed only in year 2014. -/
def dfOne : List Row := [⟨"A", 1, 2014, some 10, some 20, some 30⟩]

/-- The cube built from dfOne. -/
def cubeOne : List (List (List Int)) := [[[10, 20, 30]]]

/-- The statistics record of the school of dfOne. -/
def oneRecord : SchoolStatsRecord :=
  ⟨"A", 1, 10, 20, 30, 30, 10, [60], 60, 60, [], .noneOver500⟩

/-- The general statistics record of dfOne. -/
def oneGeneral : GeneralStatsRecord := ⟨none, none, 0, 30, 10⟩

/-- A school whose cells over 500 are exactly 501 and 502. -/
def dfMed : List Row := [⟨"M", 5, 2013, some 501, some 502, some 3⟩]

/-- The cube built from dfMed. -/
def cubeMed : List (List (List Int)) := [[[501, 502, 3]]]

/-- The statistics record of the school of dfMed. -/
def medRecord : SchoolStatsRecord :=
  ⟨"M", 5, 501, 502, 3, 502, 3, [1006], 1006, 1006, [501, 502], .value 501⟩

/-! Helper lemmas about the building blocks. -/

theorem mapE_ok_length {α β : Type} {f : α → Except PyError β} :
    ∀ {l : List α} {ys : List β}, mapE f l = .ok ys → ys.length = l.length := by
  intro l
  induction l with
  | nil =>
    intro ys h
    cases h
    rfl
  | cons x xs ih =>
    intro ys h
    unfold mapE at h
    cases hfx : f x with
    | error e => rw [hfx] at h; cases h
    | ok y =>
      rw [hfx] at h
      cases hrest : mapE f xs with
      | error e => rw [hrest] at h; cases h
      | ok ys2 =>
        rw [hrest] at h
        cases h
        simp [ih hrest]

theorem mapE_ok_get {α β : Type} {f : α → Except PyError β} (d : α) (e : β) :
    ∀ {l : List α} {ys : List β}, mapE f l = .ok ys →
      ∀ i, i < l.length → f (l.getD i d) = .ok (ys.getD i e) := by
  intro l
  induction l with
  | nil =>
    intro ys _ i hi
    exact absurd hi (by simp)
  | cons x xs ih =>
    intro ys h i hi
    unfold mapE at h
    cases hfx : f x with
    | error er => rw [hfx] at h; cases h
    | ok y =>
      rw [hfx] at h
      cases hrest : mapE f xs with
      | error er => rw [hrest] at h; cases h
      | ok ys2 =>
        rw [hrest] at h
        cases h
        cases i with
        | zero => simpa using hfx
        | succ j =>
          have hj : j < xs.length := by simpa using hi
          simpa using ih hrest j hj

theorem uniqueAux_cons {α : Type} [DecidableEq α] (s : List α) (x : α) (xs : List α) :
    uniqueAux s (x :: xs) =
      if x ∈ s then uniqueAux s xs else x :: uniqueAux (x :: s) xs := rfl

theorem uniqueAux_congr {α : Type} [DecidableEq α] :
    ∀ (l : List α) (s₁ s₂ : List α), (∀ a, a ∈ s₁ ↔ a ∈ s₂) →
      uniqueAux s₁ l = uniqueAux s₂ l := by
  intro l
  induction l with
  | nil => intro s₁ s₂ _; rfl
  | cons x xs ih =>
    intro s₁ s₂ hs
    unfold uniqueAux
    by_cases hx : x ∈ s₁
    · rw [if_pos hx, if_pos ((hs x).mp hx)]
      exact ih s₁ s₂ hs
    · rw [if_neg hx, if_neg (fun hc => hx ((hs x).mpr hc))]
      have hcons : ∀ a, a ∈ x :: s₁ ↔ a ∈ x :: s₂ := by
        intro a
        simp [hs a]
      rw [ih (x :: s₁) (x :: s₂) hcons]

theorem keys_update (m : List (String × Int)) (name : String) (code : Int) :
    (m.map (fun p => if p.1 == name then (p.1, code) else p)).map Prod.fst =
      m.map Prod.fst := by
  induction m with
  | nil => rfl
  | cons p ps ih =>
    simp only [List.map_cons, ih]
    by_cases h : (p.1 == name) = true
    · rw [if_pos h]
    · rw [if_neg h]

theorem keys_insertCode (m : List (String × Int)) (name : String) (code : Int) :
    (insertCode m name code).map Prod.fst =
      if name ∈ m.map Prod.fst then m.map Prod.fst else m.map Prod.fst ++ [name] := by
  unfold insertCode
  by_cases h : name ∈ m.map Prod.fst
  · rw [if_pos h, if_pos h, keys_update]
  · rw [if_neg h, if_neg h, List.map_append]
    rfl

theorem keys_foldl (df : List Row) :
    ∀ m : List (String × Int),
      (df.foldl (fun m r => insertCode m r.schoolName r.schoolCode) m).map Prod.fst =
        m.map Prod.fst ++ uniqueAux (m.map Prod.fst) (df.map Row.schoolName) := by
  induction df with
  | nil =>
    intro m
    simp [uniqueAux]
  | cons r rest ih =>
    intro m
    simp only [List.foldl_cons, List.map_cons]
    rw [ih (insertCode m r.schoolName r.schoolCode), keys_insertCode]
    by_cases h : r.schoolName ∈ m.map Prod.fst
    · rw [if_pos h, uniqueAux_cons, if_pos h]
    · rw [if_neg h, uniqueAux_cons, if_neg h, List.append_assoc, List.singleton_append]
      congr 1
      congr 1
      apply uniqueAux_congr
      intro a
      simp [or_comm]

theorem keys_school_codes (df : List Row) :
    (school_codes df).map Prod.fst = schoolsOf df := by
  have h := keys_foldl df []
  simpa [school_codes, schoolsOf, unique] using h

theorem indexOfName_some :
    ∀ (codes : List (String × Int)) (n : String) (i : Nat),
      indexOfName codes n = some i → i < codes.length ∧ (codes.getD i ("", 0)).1 = n := by
  intro codes
  induction codes with
  | nil => intro n i h; cases h
  | cons p ps ih =>
    intro n i h
    unfold indexOfName at h
    by_cases hp : p.1 = n
    · rw [if_pos hp] at h
      cases h
      exact ⟨by simp, hp⟩
    · rw [if_neg hp] at h
      cases hj : indexOfName ps n with
      | none => rw [hj] at h; cases h
      | some j =>
        rw [hj] at h
        cases h
        obtain ⟨hlt, hget⟩ := ih n j hj
        exact ⟨by simpa using Nat.succ_lt_succ hlt, by simpa using hget⟩

theorem indexOfName_eq_none :
    ∀ (codes : List (String × Int)) (n : String),
      indexOfName codes n = none ↔ ∀ p ∈ codes, p.1 ≠ n := by
  intro codes
  induction codes with
  | nil =>
    intro n
    simp [indexOfName]
  | cons p ps ih =>
    intro n
    unfold indexOfName
    by_cases hp : p.1 = n
    · rw [if_pos hp]
      simp [hp]
    · rw [if_neg hp]
      cases hj : indexOfName ps n with
      | none =>
        simp only [true_iff]
        intro q hq
        rcases List.mem_cons.mp hq with hq1 | hq2
        · rw [hq1]; exact hp
        · exact ((ih n).mp hj) q hq2
      | some j =>
        constructor
        · intro h
          cases h
        · intro hall
          have hnone : indexOfName ps n = none := by
            rw [ih n]
            intro q hq
            exact hall q (List.mem_cons_of_mem _ hq)
          rw [hnone] at hj
          cases hj

theorem getD_map_fst :
    ∀ (l : List (String × Int)) (i : Nat), i < l.length →
      (l.map Prod.fst).getD i "" = (l.getD i ("", 0)).1 := by
  intro l
  induction l with
  | nil =>
    intro i hi
    exact absurd hi (by simp)
  | cons p ps ih =>
    intro i hi
    cases i with
    | zero => rfl
    | succ j =>
      simp only [List.map_cons, List.getD_cons_succ]
      exact ih j (by simpa using hi)

theorem insertSorted_length (x : Int) :
    ∀ l : List Int, (insertSorted x l).length = l.length + 1 := by
  intro l
  induction l with
  | nil => rfl
  | cons y ys ih =>
    unfold insertSorted
    by_cases h : x ≤ y
    · rw [if_pos h]
      rfl
    · rw [if_neg h]
      simp [ih]

theorem sortInts_length (l : List Int) : (sortInts l).length = l.length := by
  unfold sortInts
  induction l with
  | nil => rfl
  | cons x xs ih =>
    simp only [List.foldr_cons, insertSorted_length, ih, List.length_cons]

theorem unique_eq_nil {α : Type} [DecidableEq α] {l : List α} (h : unique l = []) :
    l = [] := by
  cases l with
  | nil => rfl
  | cons x xs =>
    unfold unique uniqueAux at h
    rw [if_neg (List.not_mem_nil x)] at h
    cases h

theorem unique_cons_ne_nil {α : Type} [DecidableEq α] (x : α) (xs : List α) :
    unique (x :: xs) ≠ [] := by
  unfold unique uniqueAux
  rw [if_neg (List.not_mem_nil x)]
  simp

theorem calculate_eq_core {df : List Row} {cube : List (List (List Int))}
    {ident : Identifier} {i : Nat}
    (hi : get_school_index (school_codes df) ident = .ok i) :
    calculate_school_stats df cube ident = calculate_core df cube i := by
  unfold calculate_school_stats
  rw [hi]

theorem calculate_core_fields {df : List Row} {cube : List (List (List Int))}
    {idx : Nat} {st : SchoolStatsRecord}
    (h : calculate_core df cube idx = .ok st) :
    st.total_enrollment = (cells (cube.getD idx [])).sum ∧
    st.enrollments_over_500 =
      (cells (cube.getD idx [])).filter (fun v => decide (500 < v)) ∧
    st.median_over_500 =
      (if ((cells (cube.getD idx [])).filter (fun v => decide (500 < v))).isEmpty
       then Median500.noneOver500
       else Median500.value
         (npMedianInt ((cells (cube.getD idx [])).filter (fun v => decide (500 < v))))) := by
  unfold calculate_core at h
  by_cases hc : (cells (cube.getD idx [])).isEmpty = true
  · rw [if_pos hc] at h
    cases h
  · rw [if_neg hc] at h
    cases h
    exact ⟨rfl, rfl, rfl⟩

theorem cellValue_zero_of_missing (df : List Row) (school : String) (year : Int)
    (col : Row → Option Int)
    (h : ((matchingRows df school year).map col).any Option.isNone = true) :
    cellValue df school year col = .ok 0 := by
  unfold cellValue
  rw [if_pos h]

theorem cellValue_error_of_no_match (df : List Row) (school : String) (year : Int)
    (col : Row → Option Int) (h : matchingRows df school year = []) :
    cellValue df school year col = .error .typeError := by
  unfold cellValue
  rw [h]
  rfl

/-! Claim C1. -/

/-- C1 counterexample: on dfGap the pair (school A, year 2014) has no
matching raw row, and cube construction does not set that cell to 0: it
raises the TypeError of int() applied to an empty selection, so no cube is
produced at all. -/
theorem c1_absent_combination_raises :
    create_enrollment_array dfGap = .error .typeError ∧
    ¬ ∃ cube, create_enrollment_array dfGap = .ok cube := by
  constructor
  · rfl
  · intro h
    obtain ⟨c, hc⟩ := h
    rw [show create_enrollment_array dfGap = .error .typeError from rfl] at hc
    cases hc

/-- C1 amended: a cell whose matched selection holds a missing (NaN) value
is set to 0, and at cube level a successfully built cube holds 0 wherever
the matched grade value was missing; but when no raw row matches a
(school, year) pair the construction raises TypeError instead of storing 0. -/
theorem c1_missing_value_cell_zero (df : List Row) (school : String) (year : Int)
    (col : Row → Option Int) :
    (((matchingRows df school year).map col).any Option.isNone = true →
      cellValue df school year col = .ok 0) ∧
    (matchingRows df school year = [] →
      cellValue df school year col = .error .typeError) ∧
    (∀ cube i j k, create_enrollment_array df = .ok cube →
      i < (schoolsOf df).length → j < (yearsOf df).length → k < 3 →
      ((matchingRows df ((schoolsOf df).getD i "") ((yearsOf df).getD j 0)).map
          (gradeCols.getD k Row.grade10)).any Option.isNone = true →
      ((cube.getD i []).getD j []).getD k 0 = 0) := by
  refine ⟨?_, ?_, ?_⟩
  · intro h
    exact cellValue_zero_of_missing df school year col h
  · intro h
    exact cellValue_error_of_no_match df school year col h
  · intro cube i j k hc hi hj hk hmiss
    unfold create_enrollment_array at hc
    have h1 := mapE_ok_get "" ([] : List (List Int)) hc i hi
    have h1e : mapE (fun year => mapE (fun col => cellValue df ((schoolsOf df).getD i "") year col)
        gradeCols) (yearsOf df) = .ok (cube.getD i []) := h1
    have h2 := mapE_ok_get (0 : Int) ([] : List Int) h1e j hj
    have h2e : mapE (fun col => cellValue df ((schoolsOf df).getD i "")
        ((yearsOf df).getD j 0) col) gradeCols = .ok ((cube.getD i []).getD j []) := h2
    have hk3 : k < gradeCols.length := by
      simpa [gradeCols] using hk
    have h3 := mapE_ok_get Row.grade10 (0 : Int) h2e k hk3
    have h0 : cellValue df ((schoolsOf df).getD i "") ((yearsOf df).getD j 0)
        (gradeCols.getD k Row.grade10) = .ok 0 :=
      cellValue_zero_of_missing df _ _ _ hmiss
    rw [h0] at h3
    exact (Except.ok.inj h3).symm

/-- C1 amended witness: in dfLincoln the Grade 11 value of (Lincoln, 2014)
is missing and the cell is 0, while (Lincoln, 2015) has no matching row and
the cell computation raises TypeError. -/
theorem c1_missing_value_cell_zero_witness :
    ((matchingRows dfLincoln "Lincoln" 2014).map Row.grade11).any Option.isNone = true ∧
    cellValue dfLincoln "Lincoln" 2014 Row.grade11 = .ok 0 ∧
    matchingRows dfLincoln "Lincoln" 2015 = [] ∧
    cellValue dfLincoln "Lincoln" 2015 Row.grade10 = .error .typeError :=
  ⟨by decide,
   (c1_missing_value_cell_zero dfLincoln "Lincoln" 2014 Row.grade11).1 (by decide),
   by decide,
   (c1_missing_value_cell_zero dfLincoln "Lincoln" 2015 Row.grade10).2.1 (by decide)⟩

/-! Claim C2. -/

/-- C2: the total_enrollment field returned by calculate_school_stats is the
sum of all cells of the cube slice at the resolved school position. -/
theorem c2_total_enrollment_is_slice_sum (df : List Row)
    (cube : List (List (List Int))) (ident : Identifier) (i : Nat)
    (st : SchoolStatsRecord)
    (_hc : create_enrollment_array df = .ok cube)
    (hi : get_school_index (school_codes df) ident = .ok i)
    (hs : calculate_school_stats df cube ident = .ok st) :
    st.total_enrollment = (cells (cube.getD i [])).sum := by
  rw [calculate_eq_core hi] at hs
  exact (calculate_core_fields hs).1

/-- C2 witness: on dfLincoln, total_enrollment 2480 is the sum of the slice
of school position 0. -/
theorem c2_total_enrollment_is_slice_sum_witness :
    create_enrollment_array dfLincoln = .ok cubeLincoln ∧
    get_school_index (school_codes dfLincoln) (.byName "Lincoln") = .ok 0 ∧
    calculate_school_stats dfLincoln cubeLincoln (.byName "Lincoln") = .ok lincolnRecord ∧
    lincolnRecord.total_enrollment = (cells (cubeLincoln.getD 0 [])).sum :=
  ⟨rfl, rfl, rfl,
   c2_total_enrollment_is_slice_sum dfLincoln cubeLincoln (.byName "Lincoln") 0
     lincolnRecord rfl rfl rfl⟩

/-! Claim C8. -/

/-- C8: cube construction is deterministic; two successful runs on the same
table produce the same cube, whose first dimension has one entry per
distinct school. -/
theorem c8_cube_deterministic (df : List Row) (c1 c2 : List (List (List Int)))
    (h1 : create_enrollment_array df = .ok c1)
    (h2 : create_enrollment_array df = .ok c2) :
    c1 = c2 ∧ c1.length = (schoolsOf df).length := by
  constructor
  · exact Except.ok.inj (h1.symm.trans h2)
  · unfold create_enrollment_array at h1
    exact mapE_ok_length h1

/-- C8 witness: rebuilding from dfLincoln yields the same single-school cube. -/
theorem c8_cube_deterministic_witness :
    create_enrollment_array dfLincoln = .ok cubeLincoln ∧
    cubeLincoln = cubeLincoln ∧ cubeLincoln.length = (schoolsOf dfLincoln).length :=
  ⟨rfl, c8_cube_deterministic dfLincoln cubeLincoln cubeLincoln rfl rfl⟩

theorem calculate_core_ok (df : List Row) (cube : List (List (List Int))) (idx : Nat)
    (h : (cells (cube.getD idx [])).isEmpty = false) :
    ∃ st, calculate_core df cube idx = .ok st := by
  unfold calculate_core
  rw [h]
  exact ⟨_, rfl⟩

theorem get_school_index_eq_of_resolve (codes : List (String × Int)) (ident : Identifier)
    (n : String) (h : resolveName codes ident = some n) :
    get_school_index codes ident =
      match indexOfName codes n with
      | none => .error .unknownSchool
      | some i => .ok i := by
  unfold get_school_index
  rw [h]

theorem get_school_index_eq_err_of_resolve (codes : List (String × Int))
    (ident : Identifier) (h : resolveName codes ident = none) :
    get_school_index codes ident = .error .unknownSchool := by
  unfold get_school_index
  rw [h]

theorem get_school_index_ok (codes : List (String × Int)) (ident : Identifier)
    (n : String) (i : Nat) (h : resolveName codes ident = some n)
    (h2 : indexOfName codes n = some i) :
    get_school_index codes ident = .ok i := by
  rw [get_school_index_eq_of_resolve codes ident n h, h2]

theorem get_school_index_err_name (codes : List (String × Int)) (ident : Identifier)
    (n : String) (h : resolveName codes ident = some n)
    (h2 : indexOfName codes n = none) :
    get_school_index codes ident = .error .unknownSchool := by
  rw [get_school_index_eq_of_resolve codes ident n h, h2]

theorem get_school_index_ok_inv (codes : List (String × Int)) (ident : Identifier)
    (p : Nat) (h : get_school_index codes ident = .ok p) :
    ∃ n, resolveName codes ident = some n ∧ indexOfName codes n = some p := by
  unfold get_school_index at h
  cases hr : resolveName codes ident with
  | none =>
    rw [hr] at h
    cases h
  | some n =>
    rw [hr] at h
    have h2 : (match indexOfName codes n with
        | none => Except.error PyError.unknownSchool
        | some i => Except.ok i) = Except.ok p := h
    cases hidx : indexOfName codes n with
    | none =>
      rw [hidx] at h2
      cases h2
    | some j =>
      rw [hidx] at h2
      have h3 : (Except.ok j : Except PyError Nat) = Except.ok p := h2
      cases h3
      exact ⟨n, rfl, hidx⟩

/-! Claim C3. -/

/-- C3 counterexample: in dfDup the schools A and B share code 7; school B
is present with code 7, its name resolves to position 1 but its code
resolves to position 0 (the first dict entry with that code), so name and
code resolution disagree. -/
theorem c3_duplicate_code_counterexample :
    ("B", (7 : Int)) ∈ school_codes dfDup ∧
    get_school_index (school_codes dfDup) (.byName "B") = .ok 1 ∧
    get_school_index (school_codes dfDup) (.byCode 7) = .ok 0 := by
  refine ⟨by decide, rfl, rfl⟩

/-- C3 amended: when no two entries of the school_codes dict share a code,
resolving a school's stored code returns the same position as resolving its
name. -/
theorem c3_name_code_same_position (df : List Row) (n : String) (c : Int)
    (hinj : ∀ p ∈ school_codes df, ∀ q ∈ school_codes df, p.2 = q.2 → p.1 = q.1)
    (hmem : (n, c) ∈ school_codes df) :
    get_school_index (school_codes df) (.byCode c) =
      get_school_index (school_codes df) (.byName n) := by
  have hsome : ((school_codes df).find? (fun p => p.2 == c)).isSome := by
    rw [List.find?_isSome]
    exact ⟨(n, c), hmem, by simp⟩
  obtain ⟨p, hp⟩ := Option.isSome_iff_exists.mp hsome
  have hpmem : p ∈ school_codes df := List.mem_of_find?_eq_some hp
  have hpc : p.2 = c := by
    have := List.find?_some hp
    simpa using this
  have hpn : p.1 = n := hinj p hpmem (n, c) hmem (by simpa using hpc)
  have hres : resolveName (school_codes df) (.byCode c) = some n := by
    show ((school_codes df).find? (fun p => p.2 == c)).map Prod.fst = some n
    rw [hp]
    simp [hpn]
  have hres2 : resolveName (school_codes df) (.byName n) = some n := rfl
  rw [get_school_index_eq_of_resolve (school_codes df) (.byCode c) n hres,
    get_school_index_eq_of_resolve (school_codes df) (.byName n) n hres2]

/-- C3 amended witness: in dfLincoln the codes are unique, Lincoln is stored
with code 100, and code resolution agrees with name resolution. -/
theorem c3_name_code_same_position_witness :
    (∀ p ∈ school_codes dfLincoln, ∀ q ∈ school_codes dfLincoln,
      p.2 = q.2 → p.1 = q.1) ∧
    ("Lincoln", (100 : Int)) ∈ school_codes dfLincoln ∧
    get_school_index (school_codes dfLincoln) (.byCode 100) =
      get_school_index (school_codes dfLincoln) (.byName "Lincoln") :=
  ⟨by decide, by decide,
   c3_name_code_same_position dfLincoln "Lincoln" 100 (by decide) (by decide)⟩

/-! Claim C4. -/

/-- C4: an identifier matching no school of the dataset (no dict entry with
that name, respectively that code) makes get_school_index raise the
unknown-school ValueError rather than return a position. -/
theorem c4_unknown_identifier_error (df : List Row) (ident : Identifier)
    (h : ∀ p ∈ school_codes df, matchesSchool ident p = false) :
    get_school_index (school_codes df) ident = .error .unknownSchool := by
  cases ident with
  | byName n =>
    have hidx : indexOfName (school_codes df) n = none := by
      rw [indexOfName_eq_none]
      intro p hp
      have hm := h p hp
      simpa [matchesSchool] using hm
    exact get_school_index_err_name (school_codes df) (.byName n) n rfl hidx
  | byCode c =>
    have hfind : (school_codes df).find? (fun p => p.2 == c) = none := by
      rw [List.find?_eq_none]
      intro p hp
      have hm := h p hp
      simpa [matchesSchool] using hm
    have hres : resolveName (school_codes df) (.byCode c) = none := by
      show ((school_codes df).find? (fun p => p.2 == c)).map Prod.fst = none
      rw [hfind]
      rfl
    exact get_school_index_eq_err_of_resolve (school_codes df) (.byCode c) hres

/-- C4 witness: dfLincoln knows neither the name Roosevelt nor the code 999;
both resolutions fail with the unknown-school error. -/
theorem c4_unknown_identifier_error_witness :
    (∀ p ∈ school_codes dfLincoln, matchesSchool (.byName "Roosevelt") p = false) ∧
    get_school_index (school_codes dfLincoln) (.byName "Roosevelt") =
      .error .unknownSchool ∧
    (∀ p ∈ school_codes dfLincoln, matchesSchool (.byCode 999) p = false) ∧
    get_school_index (school_codes dfLincoln) (.byCode 999) = .error .unknownSchool :=
  ⟨by decide,
   c4_unknown_identifier_error dfLincoln (.byName "Roosevelt") (by decide),
   by decide,
   c4_unknown_identifier_error dfLincoln (.byCode 999) (by decide)⟩

/-! Claim C9. -/

/-- C9: an accepted identifier returns a position p below the number of
distinct school names; the dict insertion order coincides with the
first-appearance order of the distinct school names, the resolved school is
the one at position p of that order, and the cube slice at axis-0 position
p is the slice built for exactly that school. -/
theorem c9_resolved_position_aligned_with_cube (df : List Row)
    (ident : Identifier) (p : Nat)
    (h : get_school_index (school_codes df) ident = .ok p) :
    p < (schoolsOf df).length ∧
    (school_codes df).map Prod.fst = schoolsOf df ∧
    resolveName (school_codes df) ident = some ((schoolsOf df).getD p "") ∧
    ∀ cube, create_enrollment_array df = .ok cube →
      schoolSlice df ((schoolsOf df).getD p "") = .ok (cube.getD p []) := by
  obtain ⟨n, hr, hidx⟩ := get_school_index_ok_inv _ _ _ h
  obtain ⟨hlt, hname⟩ := indexOfName_some _ _ _ hidx
  have hkeys := keys_school_codes df
  have hlen : (school_codes df).length = (schoolsOf df).length := by
    rw [← hkeys, List.length_map]
  have hplt : p < (schoolsOf df).length := hlen ▸ hlt
  have hgetD : (schoolsOf df).getD p "" = n := by
    rw [← hkeys, getD_map_fst _ _ hlt, hname]
  refine ⟨hplt, hkeys, ?_, ?_⟩
  · rw [hr, hgetD]
  · intro cube hc
    unfold create_enrollment_array at hc
    exact mapE_ok_get "" ([] : List (List Int)) hc p hplt

/-- C9 witness: in dfLincoln, code 100 resolves to position 0, the dict key
order is the school order, and the cube slice at position 0 is Lincoln's. -/
theorem c9_resolved_position_aligned_with_cube_witness :
    get_school_index (school_codes dfLincoln) (.byCode 100) = .ok 0 ∧
    0 < (schoolsOf dfLincoln).length ∧
    (school_codes dfLincoln).map Prod.fst = schoolsOf dfLincoln ∧
    resolveName (school_codes dfLincoln) (.byCode 100) =
      some ((schoolsOf dfLincoln).getD 0 "") ∧
    schoolSlice dfLincoln ((schoolsOf dfLincoln).getD 0 "") =
      .ok (cubeLincoln.getD 0 []) :=
  have h := c9_resolved_position_aligned_with_cube dfLincoln (.byCode 100) 0 rfl
  ⟨rfl, h.1, h.2.1, h.2.2.1, h.2.2.2 cubeLincoln rfl⟩

/-! Claim C6. -/

/-- C6 counterexample: with an empty table (zero schools, zero years), the
per-school computation does fail for any identifier, but with the
unknown-school validation error raised by index resolution, not with an
empty-data error; the empty-reduction error is a distinct error value. -/
theorem c6_degenerate_error_is_unknown_school :
    calculate_school_stats [] [] (.byName "X") = .error .unknownSchool ∧
    PyError.unknownSchool ≠ PyError.emptyReduction :=
  ⟨rfl, by decide⟩

/-- C6 amended: with zero schools the per-school computation fails for every
identifier, with the unknown-school error (resolution fails before any mean
is computed); and whenever resolution succeeds on a cube built from the
table, the computation returns a record, so the empty-reduction branch (a
mean or max over zero elements) is unreachable. -/
theorem c6_degenerate_fails_and_empty_branch_unreachable (df : List Row)
    (cube : List (List (List Int))) (ident : Identifier) :
    (schoolsOf df = [] → calculate_school_stats df cube ident = .error .unknownSchool) ∧
    (∀ i, create_enrollment_array df = .ok cube →
      get_school_index (school_codes df) ident = .ok i →
      ∃ st, calculate_school_stats df cube ident = .ok st) := by
  constructor
  · intro h0
    have hdf : df = [] := by
      have hmap : df.map Row.schoolName = [] := unique_eq_nil h0
      cases df with
      | nil => rfl
      | cons r rest => cases hmap
    subst hdf
    cases ident with
    | byName n => rfl
    | byCode c => rfl
  · intro i hc hi
    obtain ⟨n, hr, hidx⟩ := get_school_index_ok_inv _ _ _ hi
    obtain ⟨hlt, -⟩ := indexOfName_some _ _ _ hidx
    have hkeys := keys_school_codes df
    have hlen : (school_codes df).length = (schoolsOf df).length := by
      rw [← hkeys, List.length_map]
    have hplt : i < (schoolsOf df).length := hlen ▸ hlt
    unfold create_enrollment_array at hc
    have hslice := mapE_ok_get "" ([] : List (List Int)) hc i hplt
    have hslE : mapE (fun year => mapE (fun col => cellValue df
        ((schoolsOf df).getD i "") year col) gradeCols) (yearsOf df) =
        .ok (cube.getD i []) := hslice
    have hsl_len : (cube.getD i []).length = (yearsOf df).length :=
      mapE_ok_length hslE
    have hdf_ne : df ≠ [] := by
      intro h0
      subst h0
      simp [school_codes] at hlt
    have hyears_ne : yearsOf df ≠ [] := by
      cases hd : df with
      | nil => exact absurd hd hdf_ne
      | cons r rest =>
        unfold yearsOf
        rw [List.map_cons]
        exact unique_cons_ne_nil _ _
    have hslice_ne : cube.getD i [] ≠ [] := by
      intro h0
      rw [h0] at hsl_len
      exact hyears_ne (List.length_eq_zero.mp hsl_len.symm)
    obtain ⟨row0, rrest, hrows⟩ := List.exists_cons_of_ne_nil hslice_ne
    have h0lt : 0 < (yearsOf df).length := by
      cases hy : yearsOf df with
      | nil => exact absurd hy hyears_ne
      | cons y ys => simp
    have hrow0 : mapE (fun col => cellValue df ((schoolsOf df).getD i "")
        ((yearsOf df).getD 0 0) col) gradeCols = .ok ((cube.getD i []).getD 0 []) :=
      mapE_ok_get (0 : Int) ([] : List Int) hslE 0 h0lt
    have hrow_len : ((cube.getD i []).getD 0 []).length = 3 := by
      have hml := mapE_ok_length hrow0
      simpa [gradeCols] using hml
    have hrow_eq : (cube.getD i []).getD 0 [] = row0 := by
      rw [hrows]
      rfl
    have hcells : (cells (cube.getD i [])).isEmpty = false := by
      rw [hrows]
      rw [hrow_eq] at hrow_len
      cases row0 with
      | nil => cases hrow_len
      | cons a arest => rfl
    obtain ⟨st, hst⟩ := calculate_core_ok df cube i hcells
    refine ⟨st, ?_⟩
    rw [calculate_eq_core (get_school_index_ok _ _ _ _ hr hidx)]
    exact hst

/-- C6 amended witness: the empty table fails with the unknown-school error,
and on dfLincoln a resolved identifier always yields a record. -/
theorem c6_degenerate_fails_and_empty_branch_unreachable_witness :
    schoolsOf ([] : List Row) = [] ∧
    calculate_school_stats [] [] (.byName "X") = .error .unknownSchool ∧
    create_enrollment_array dfLincoln = .ok cubeLincoln ∧
    get_school_index (school_codes dfLincoln) (.byName "Lincoln") = .ok 0 ∧
    (∃ st, calculate_school_stats dfLincoln cubeLincoln (.byName "Lincoln") = .ok st) :=
  ⟨rfl,
   (c6_degenerate_fails_and_empty_branch_unreachable [] [] (.byName "X")).1 rfl,
   rfl, rfl,
   (c6_degenerate_fails_and_empty_branch_unreachable dfLincoln cubeLincoln
     (.byName "Lincoln")).2 0 rfl rfl⟩

/-! Claim C5. -/

/-- C5: for a resolved school, if no cell of its slice exceeds 500 the
median_over_500 field is the no-enrollments marker (never a number), and if
some cell exceeds 500 it is the integer median of the multiset of cells
strictly greater than 500. -/
theorem c5_median_over_500_marker (df : List Row) (cube : List (List (List Int)))
    (ident : Identifier) (i : Nat) (st : SchoolStatsRecord)
    (hi : get_school_index (school_codes df) ident = .ok i)
    (hs : calculate_school_stats df cube ident = .ok st) :
    ((∀ v ∈ cells (cube.getD i []), v ≤ 500) → st.median_over_500 = .noneOver500) ∧
    ((∃ v ∈ cells (cube.getD i []), 500 < v) →
      st.median_over_500 =
        .value (npMedianInt ((cells (cube.getD i [])).filter (fun v => decide (500 < v))))) := by
  rw [calculate_eq_core hi] at hs
  obtain ⟨-, -, hmed⟩ := calculate_core_fields hs
  constructor
  · intro hall
    have hfil : (cells (cube.getD i [])).filter (fun v => decide (500 < v)) = [] := by
      rw [List.filter_eq_nil_iff]
      intro a ha
      simpa using hall a ha
    rw [hmed, hfil]
    rfl
  · intro hex
    obtain ⟨v, hv, hv5⟩ := hex
    have hne : (cells (cube.getD i [])).filter (fun v => decide (500 < v)) ≠ [] := by
      intro h0
      have hvmem : v ∈ (cells (cube.getD i [])).filter (fun v => decide (500 < v)) :=
        List.mem_filter.mpr ⟨hv, by simpa using hv5⟩
      rw [h0] at hvmem
      cases hvmem
    rw [hmed]
    cases hf : (cells (cube.getD i [])).filter (fun v => decide (500 < v)) with
    | nil => exact absurd hf hne
    | cons a as => rfl

/-- C5 witness: the school of dfOne has no cell over 500 and gets the
marker; the school of dfLincoln has cells 600 and 610 over 500 and gets
their integer median. -/
theorem c5_median_over_500_marker_witness :
    get_school_index (school_codes dfOne) (.byName "A") = .ok 0 ∧
    calculate_school_stats dfOne cubeOne (.byName "A") = .ok oneRecord ∧
    (∀ v ∈ cells (cubeOne.getD 0 []), v ≤ 500) ∧
    oneRecord.median_over_500 = .noneOver500 ∧
    get_school_index (school_codes dfLincoln) (.byName "Lincoln") = .ok 0 ∧
    calculate_school_stats dfLincoln cubeLincoln (.byName "Lincoln") = .ok lincolnRecord ∧
    (∃ v ∈ cells (cubeLincoln.getD 0 []), 500 < v) ∧
    lincolnRecord.median_over_500 =
      .value (npMedianInt ((cells (cubeLincoln.getD 0 [])).filter (fun v => decide (500 < v)))) :=
  ⟨rfl, rfl, by decide,
   (c5_median_over_500_marker dfOne cubeOne (.byName "A") 0 oneRecord rfl rfl).1 (by decide),
   rfl, rfl, by decide,
   (c5_median_over_500_marker dfLincoln cubeLincoln (.byName "Lincoln") 0 lincolnRecord
     rfl rfl).2 (by decide)⟩

/-! Claim C7. -/

/-- C7 counterexample: dfOne is observed only in year 2014, so the earliest
and latest observed years are 2014; the spec's generalStats at those bounds
reports a floored mean of 20, while the code's calculate_general_stats takes
no year parameters and filters on the literal year 2013, yielding the NaN of
a mean over no rows. -/
theorem c7_years_hardcoded_counterexample :
    yearsOf dfOne = [2014] ∧
    earliestYear dfOne = 2014 ∧
    latestYear dfOne = 2014 ∧
    calculate_general_stats dfOne cubeOne = .ok ⟨none, none, 0, 30, 10⟩ ∧
    calculate_general_stats_spec dfOne cubeOne (earliestYear dfOne) (latestYear dfOne) =
      .ok ⟨some 20, some 20, 30, 30, 10⟩ ∧
    (none : Option Int) ≠ some 20 :=
  ⟨rfl, rfl, rfl, rfl, rfl, by decide⟩

/-- C7 amended: calculate_general_stats takes no year parameters; its mean
fields always select the rows of the literal years 2013 and 2022, whatever
years the dataset holds. -/
theorem c7_general_stats_uses_fixed_years (df : List Row)
    (cube : List (List (List Int))) (st : GeneralStatsRecord)
    (h : calculate_general_stats df cube = .ok st) :
    st.mean_2013 = npMeanFloorOpt (gradeValuesForYear df 2013) ∧
    st.mean_2022 = npMeanFloorOpt (gradeValuesForYear df 2022) ∧
    st.total_graduating_2022 =
      ((df.filter (fun r => r.schoolYear == 2022)).filterMap Row.grade12).sum := by
  unfold calculate_general_stats at h
  by_cases hc : (cells3 cube).isEmpty = true
  · rw [if_pos hc] at h
    cases h
  · rw [if_neg hc] at h
    cases h
    exact ⟨rfl, rfl, rfl⟩

/-- C7 amended witness: on dfOne (years {2014}) the mean fields are the NaN
of the empty 2013 and 2022 selections. -/
theorem c7_general_stats_uses_fixed_years_witness :
    calculate_general_stats dfOne cubeOne = .ok oneGeneral ∧
    oneGeneral.mean_2013 = npMeanFloorOpt (gradeValuesForYear dfOne 2013) ∧
    oneGeneral.mean_2022 = npMeanFloorOpt (gradeValuesForYear dfOne 2022) ∧
    oneGeneral.total_graduating_2022 =
      ((dfOne.filter (fun r => r.schoolYear == 2022)).filterMap Row.grade12).sum :=
  ⟨rfl, c7_general_stats_uses_fixed_years dfOne cubeOne oneGeneral rfl⟩

/-! Claim C10. -/

/-- C10: when the over-500 subset is nonempty of even size, the reported
median is the truncation toward zero of the average of the two middle
values of the sorted subset. -/
theorem c10_even_median_truncation (df : List Row) (cube : List (List (List Int)))
    (ident : Identifier) (st : SchoolStatsRecord)
    (hs : calculate_school_stats df cube ident = .ok st)
    (hne : st.enrollments_over_500 ≠ [])
    (heven : st.enrollments_over_500.length % 2 = 0) :
    st.median_over_500 = .value (Int.tdiv
      ((sortInts st.enrollments_over_500).getD
          (st.enrollments_over_500.length / 2 - 1) 0 +
        (sortInts st.enrollments_over_500).getD
          (st.enrollments_over_500.length / 2) 0) 2) := by
  unfold calculate_school_stats at hs
  cases hg : get_school_index (school_codes df) ident with
  | error e =>
    rw [hg] at hs
    cases hs
  | ok i =>
    rw [hg] at hs
    have hs2 : calculate_core df cube i = .ok st := hs
    obtain ⟨-, hover, hmed⟩ := calculate_core_fields hs2
    rw [← hover] at hmed
    have hE : st.enrollments_over_500.isEmpty = false := by
      cases hl : st.enrollments_over_500 with
      | nil => exact absurd hl hne
      | cons a as => rfl
    rw [hmed, hE]
    simp only [Bool.false_eq_true, if_false]
    unfold npMedianInt
    rw [sortInts_length]
    rw [if_neg (by omega)]

/-- C10 witness: the school of dfMed has over-500 subset {501, 502}; the
average of the middle values is 501.5 and the reported median is its
truncation 501, never 502. -/
theorem c10_even_median_truncation_witness :
    calculate_school_stats dfMed cubeMed (.byName "M") = .ok medRecord ∧
    medRecord.enrollments_over_500 = [501, 502] ∧
    medRecord.enrollments_over_500 ≠ [] ∧
    medRecord.enrollments_over_500.length % 2 = 0 ∧
    medRecord.median_over_500 = .value (Int.tdiv
      ((sortInts medRecord.enrollments_over_500).getD
          (medRecord.enrollments_over_500.length / 2 - 1) 0 +
        (sortInts medRecord.enrollments_over_500).getD
          (medRecord.enrollments_over_500.length / 2) 0) 2) ∧
    medRecord.median_over_500 = .value 501 :=
  ⟨rfl, rfl, by decide, by decide,
   c10_even_median_truncation dfMed cubeMed (.byName "M") medRecord rfl
     (by decide) (by decide),
   rfl⟩
